import Mathlib

/-!
Verification of the `astrbot_plugin_status` repository: a shallow
embedding of `system_info.py`, `kawaii_renderer.py` and the caching layer
of `main.py`, followed by theorems settling the specification claims.

Conventions of the embedding:
* Python floats are modelled as `ℚ` (every value the code manipulates is
  an exact binary fraction in the ranges of interest), Python ints as `ℕ`;
  wall-clock timestamps fed to `format_uptime` are modelled in whole
  seconds.
* Python division `x / y` raises `ZeroDivisionError` when `y = 0`; a
  computation that can raise is embedded as `Except` (error value
  `.zeroDiv`), and a draw call that the code skips is embedded as
  `Option` where `none` means "not drawn".
* `round(x, 2)` and the format specifier `"{:.1f}"` round half to even,
  as Python does.
* `math.log10` is modelled as `Real.logb 10`.
-/

namespace StatusPlugin

/-- Round half to even (Python's `round` tie-breaking rule). -/
def roundHalfEven (x : ℚ) : ℤ :=
  if x - ⌊x⌋ < 1 / 2 then ⌊x⌋
  else if 1 / 2 < x - ⌊x⌋ then ⌊x⌋ + 1
  else if ⌊x⌋ % 2 = 0 then ⌊x⌋ else ⌊x⌋ + 1

/-- Python `round(x, 2)`. -/
def round2 (x : ℚ) : ℚ := (roundHalfEven (x * 100) : ℚ) / 100

/-- Python `f"{x:.1f}"` for a non-negative value: one decimal place,
round half to even. -/
def fmt1 (x : ℚ) : String :=
  toString (roundHalfEven (x * 10) / 10) ++ "." ++ toString (roundHalfEven (x * 10) % 10)

/-! ## Data model (the dataclasses of `system_info.py`) -/

/-- Dataclass `CPUInfo` of `system_info.py`. -/
structure CPUInfo where
  usage : ℚ
  freq : ℚ
  cores : ℕ
  brand : String
  temperature : Option ℚ := none
deriving DecidableEq

/-- Dataclass `MemoryInfo` of `system_info.py`. -/
structure MemoryInfo where
  total : ℚ
  used : ℚ
  available : ℚ
  usage : ℚ
deriving DecidableEq

/-- Dataclass `SwapInfo` of `system_info.py`. -/
structure SwapInfo where
  total : ℚ
  used : ℚ
  usage : ℚ
deriving DecidableEq

/-- Dataclass `DiskInfo` of `system_info.py`. -/
structure DiskInfo where
  total : ℚ
  used : ℚ
  free : ℚ
  usage : ℚ
deriving DecidableEq

/-- Dataclass `NetworkInfo` of `system_info.py`. -/
structure NetworkInfo where
  bytes_sent : ℕ
  bytes_recv : ℕ
  packets_sent : ℕ
  packets_recv : ℕ
  upload_speed : ℚ
  download_speed : ℚ
deriving DecidableEq

/-- Dataclass `GPUInfo` of `system_info.py`. -/
structure GPUInfo where
  name : String
  usage : ℚ
  memory_used : ℚ
  memory_total : ℚ
  temperature : Option ℚ := none
deriving DecidableEq

/-- Dataclass `SystemInfo` of `system_info.py` (timestamps in whole
seconds). -/
structure SystemInfo where
  hostname : String
  system : String
  release : String
  architecture : String
  boot_time : ℕ
  uptime : String
  process_count : ℕ
deriving DecidableEq

/-! ## Metrics collector (`system_info.py`)

Each `get_*` function is embedded as a function of the outcome of the
psutil / pynvml / GPUtil queries it performs, so that the exception
behaviour of the source is visible: a query outcome is `Except OSErr`
(`.error` = the query raised one of the exception classes the source
deals in), and a getter that contains no `try` propagates the error. -/

/-- An exception raised by an underlying OS query (`OSError`,
`AttributeError`, `PermissionError`), or a `ZeroDivisionError` raised by
the code itself. -/
inductive OSErr where
  | osError
  | zeroDiv
deriving DecidableEq

/-- Function `bytes_to_gb` of `system_info.py`: `round(bytes_value / (1024**3), 2)`. -/
def bytes_to_gb (bytes_value : ℕ) : ℚ := round2 ((bytes_value : ℚ) / 1024 ^ 3)

/-- Result fields of `psutil.cpu_percent` / `cpu_freq` / `cpu_count` /
`cpuinfo.get_cpu_info` / the temperature probe.  `freq_mhz = none` models
`psutil.cpu_freq()` returning `None`, `brand = none` models the
`"brand_raw"` key being absent, `temperature` is the value the guarded
sensor loop would deliver. -/
structure CpuStat where
  percent : ℚ
  freq_mhz : Option ℚ
  cores : ℕ
  brand : Option String
  temperature : Option ℚ
deriving DecidableEq

/-- Result fields of `psutil.virtual_memory()`. -/
structure VMStat where
  total : ℕ
  used : ℕ
  available : ℕ
  percent : ℚ
deriving DecidableEq

/-- Result fields of `psutil.swap_memory()`. -/
structure SwapStat where
  total : ℕ
  used : ℕ
  percent : ℚ
deriving DecidableEq

/-- Result fields of `psutil.disk_usage("/")`. -/
structure DiskStat where
  total : ℕ
  used : ℕ
  free : ℕ
deriving DecidableEq

/-- Result fields of `psutil.net_io_counters()`. -/
structure NetStat where
  bytes_sent : ℕ
  bytes_recv : ℕ
  packets_sent : ℕ
  packets_recv : ℕ
deriving DecidableEq

/-- Result fields of `platform.uname()`, `psutil.boot_time()`,
`time.time()` and `psutil.pids()` (timestamps in whole seconds). -/
structure SysStat where
  hostname : String
  system : String
  release : String
  machine : String
  boot_time : ℕ
  now : ℕ
  pids : ℕ
deriving DecidableEq

/-- Outcome of the GPU probe chain of `get_gpu_info`:
`nvml` = pynvml import succeeds and the queries deliver these values;
`nvmlError` = pynvml imports but a query raises (caught by the outer
`except Exception`); `gputil` = pynvml is absent, GPUtil delivers a first
device; `gputilEmpty` = GPUtil imports but reports no devices;
`unavailable` = both libraries fail to import. -/
inductive GpuProbe where
  | nvml (name : String) (usage : ℚ) (memUsedBytes memTotalBytes : ℕ) (temp : Option ℚ)
  | nvmlError
  | gputil (name : String) (load : ℚ) (memUsedMB memTotalMB : ℚ) (temp : Option ℚ)
  | gputilEmpty
  | unavailable
deriving DecidableEq

/-- Function `get_cpu_info` of `system_info.py`, lines 123-158.  No `try` guards
the psutil calls, so a query failure propagates; the brand lookup falls
back to `"Unknown CPU"` via `dict.get`, and `freq` falls back to `0.0`
when `psutil.cpu_freq()` is `None`. -/
def get_cpu_info (q : Except OSErr CpuStat) : Except OSErr CPUInfo :=
  q.map fun s =>
    { usage := s.percent
      freq := match s.freq_mhz with
        | some f => round2 (f / 1000)
        | none => 0
      cores := s.cores
      brand := s.brand.getD "Unknown CPU"
      temperature := s.temperature }

/-- Function `get_memory_info` of `system_info.py`, lines 161-170.  Unguarded:
a query failure propagates. -/
def get_memory_info (q : Except OSErr VMStat) : Except OSErr MemoryInfo :=
  q.map fun m =>
    { total := bytes_to_gb m.total
      used := bytes_to_gb m.used
      available := bytes_to_gb m.available
      usage := m.percent }

/-- Function `get_swap_info` of `system_info.py`, lines 173-199: a failing query
is caught and collapses to the zero-valued `SwapInfo`, as does
`swap.total == 0` (the Docker detection only changes log severity and is
not modelled). -/
def get_swap_info (q : Except OSErr SwapStat) : SwapInfo :=
  match q with
  | .error _ => { total := 0, used := 0, usage := 0 }
  | .ok s =>
    if s.total = 0 then { total := 0, used := 0, usage := 0 }
    else { total := bytes_to_gb s.total, used := bytes_to_gb s.used, usage := s.percent }

/-- Function `get_disk_info` of `system_info.py`, lines 202-211.  Unguarded: a
query failure propagates, and `disk.total = 0` would raise
`ZeroDivisionError` in the percent computation. -/
def get_disk_info (q : Except OSErr DiskStat) : Except OSErr DiskInfo :=
  match q with
  | .error e => .error e
  | .ok d =>
    if d.total = 0 then .error .zeroDiv
    else
      .ok { total := bytes_to_gb d.total
            used := bytes_to_gb d.used
            free := bytes_to_gb d.free
            usage := (roundHalfEven ((d.used : ℚ) / (d.total : ℚ) * 100 * 10) : ℚ) / 10 }

/-- Function `get_network_info` of `system_info.py`, lines 214-230.  Unguarded;
both speeds are hard-coded to `0.0`. -/
def get_network_info (q : Except OSErr NetStat) : Except OSErr NetworkInfo :=
  q.map fun n =>
    { bytes_sent := n.bytes_sent
      bytes_recv := n.bytes_recv
      packets_sent := n.packets_sent
      packets_recv := n.packets_recv
      upload_speed := 0
      download_speed := 0 }

/-- Function `get_gpu_info` of `system_info.py`, lines 233-309: pynvml, then
GPUtil, then a `"Unknown GPU"` placeholder; any raised error yields the
`"No GPU"` placeholder.  The function always returns a `GPUInfo`
value — never an absent result. -/
def get_gpu_info (p : GpuProbe) : GPUInfo :=
  match p with
  | .nvml name usage memUsedBytes memTotalBytes temp =>
    { name := name, usage := usage, memory_used := bytes_to_gb memUsedBytes
      memory_total := bytes_to_gb memTotalBytes, temperature := temp }
  | .nvmlError =>
    { name := "No GPU", usage := 0, memory_used := 0, memory_total := 0, temperature := none }
  | .gputil name load memUsedMB memTotalMB temp =>
    { name := name, usage := load * 100, memory_used := memUsedMB / 1024
      memory_total := memTotalMB / 1024, temperature := temp }
  | .gputilEmpty =>
    { name := "Unknown GPU", usage := 0, memory_used := 0, memory_total := 0, temperature := none }
  | .unavailable =>
    { name := "Unknown GPU", usage := 0, memory_used := 0, memory_total := 0, temperature := none }

/-- Function `format_uptime` of `system_info.py`, lines 312-323, on a whole
number of seconds (the source floors each component of its float input,
so on whole seconds the two agree): renders
`"{days}天 {hours}小时 {minutes}分钟"` when `days > 0`,
`"{hours}小时 {minutes}分钟"` when `days = 0 < hours`, and
`"{minutes}分钟"` otherwise. -/
def format_uptime (uptime_seconds : ℕ) : String :=
  let days := uptime_seconds / 86400
  let hours := uptime_seconds % 86400 / 3600
  let minutes := uptime_seconds % 3600 / 60
  if days > 0 then
    toString days ++ "天 " ++ toString hours ++ "小时 " ++ toString minutes ++ "分钟"
  else if hours > 0 then
    toString hours ++ "小时 " ++ toString minutes ++ "分钟"
  else
    toString minutes ++ "分钟"

/-- Function `get_system_info` of `system_info.py`, lines 326-340.  Unguarded:
a query failure propagates. -/
def get_system_info (q : Except OSErr SysStat) : Except OSErr SystemInfo :=
  q.map fun s =>
    { hostname := s.hostname
      system := s.system
      release := s.release
      architecture := s.machine
      boot_time := s.boot_time
      uptime := format_uptime (s.now - s.boot_time)
      process_count := s.pids }

/-- The outcome of every OS query one call of `get_all_status_info`
performs. -/
structure OSEnv where
  cpu : Except OSErr CpuStat
  vm : Except OSErr VMStat
  swap : Except OSErr SwapStat
  disk : Except OSErr DiskStat
  net : Except OSErr NetStat
  sys : Except OSErr SysStat
  gpu : GpuProbe

/-- The dict assembled by `get_all_status_info`. -/
structure StatusInfo where
  cpu : CPUInfo
  memory : MemoryInfo
  swap : SwapInfo
  disk : DiskInfo
  network : NetworkInfo
  gpu : GPUInfo
  system : SystemInfo

/-- Function `get_all_status_info` of `system_info.py`, lines 343-353: builds the
status dict by calling every getter in turn.  The function body has no
`try`/`except`, so any error a getter propagates escapes the call. -/
def get_all_status_info (env : OSEnv) : Except OSErr StatusInfo := do
  let cpu ← get_cpu_info env.cpu
  let memory ← get_memory_info env.vm
  let swap := get_swap_info env.swap
  let disk ← get_disk_info env.disk
  let network ← get_network_info env.net
  let gpu := get_gpu_info env.gpu
  let system ← get_system_info env.sys
  return { cpu := cpu, memory := memory, swap := swap, disk := disk
           network := network, gpu := gpu, system := system }

/-! ## Card compositor (`kawaii_renderer.py`)

`render` receives the status dict; `status_info.get("network")`,
`.get("swap")` and `.get("gpu")` may be `None` (the command layer pops
`"network"` when `show_network` is off), so those three arrive as
`Option`.  Each drawing site is embedded as its computed quantity:
`Except OSErr ℚ` when the site divides by a value the code does not
guard (`.error .zeroDiv` = the render raises), `Option` when the code
skips the draw call (`none` = nothing drawn), `Bool` for whether the
draw call is made at all. -/

/-- The CPU / network sweep-angle formula of `_draw_progress_arcs`
(lines 182, 226, 242, 275): `percent * 3.6 - 90`. -/
def ring_sweep_angle (percent : ℚ) : ℚ := percent * 3.6 - 90

/-- CPU ring angle, line 182. -/
def cpu_usage_angle (cpu : CPUInfo) : ℚ := cpu.usage * 3.6 - 90

/-- RAM ring angle, line 192: `(memory_info.used / memory_info.total) * 360 - 90`,
with no guard on `total` — `total = 0` raises `ZeroDivisionError`. -/
def ram_usage_angle (m : MemoryInfo) : Except OSErr ℚ :=
  if m.total = 0 then .error .zeroDiv else .ok (m.used / m.total * 360 - 90)

/-- RAM percent label, line 305: `(memory_info.used / memory_info.total) * 100`,
unguarded. -/
def ram_percent (m : MemoryInfo) : Except OSErr ℚ :=
  if m.total = 0 then .error .zeroDiv else .ok (m.used / m.total * 100)

/-- Swap ring, lines 202-210: drawn only when `swap_info` is present and
`swap_info.total > 0`; `none` = arc not drawn. -/
def swap_usage_arc (s : Option SwapInfo) : Option ℚ :=
  match s with
  | none => none
  | some si => if si.total > 0 then some (si.used / si.total * 360 - 90) else none

/-- Swap percent label, lines 315-323: same guard as the ring. -/
def swap_percent_label (s : Option SwapInfo) : Option ℚ :=
  match s with
  | none => none
  | some si => if si.total > 0 then some (si.used / si.total * 100) else none

/-- Swap value text row of `render`, lines 106-108: drawn only when
`swap_info` is present and `swap_info.total > 0`. -/
def swap_text_drawn (s : Option SwapInfo) : Bool :=
  match s with
  | none => false
  | some si => si.total > 0

/-- Disk ring angle, line 252: unguarded division by `disk_info.total`. -/
def disk_usage_angle (d : DiskInfo) : Except OSErr ℚ :=
  if d.total = 0 then .error .zeroDiv else .ok (d.used / d.total * 360 - 90)

/-- Disk percent label, line 355: unguarded. -/
def disk_percent (d : DiskInfo) : Except OSErr ℚ :=
  if d.total = 0 then .error .zeroDiv else .ok (d.used / d.total * 100)

/-- GPU ring angle, lines 237-242: VRAM ratio when `memory_total > 0`,
otherwise the raw usage percent — the arc is drawn either way. -/
def gpu_usage_angle (g : GPUInfo) : ℚ :=
  if g.memory_total > 0 then g.memory_used / g.memory_total * 360 - 90
  else g.usage * 3.6 - 90

/-- Whether the GPU arc draw call of lines 236-249 is made: `if gpu_info:`
is true for every `GPUInfo` value (dataclasses are truthy). -/
def gpu_arc_drawn (g : Option GPUInfo) : Bool := g.isSome

/-- GPU percent value, lines 342-345: VRAM ratio when `memory_total > 0`,
else the raw usage percent. -/
def gpu_percent (g : GPUInfo) : ℚ :=
  if g.memory_total > 0 then g.memory_used / g.memory_total * 100 else g.usage

/-- GPU percent label, lines 341-352: drawn whenever `gpu_info` is
present. -/
def gpu_percent_label (g : Option GPUInfo) : Option ℚ := g.map gpu_percent

/-- GPU value text of `render`, lines 128-133: `"used / total GB"` when
`memory_total > 0`, else `"usage%"`. -/
def gpu_text (g : GPUInfo) : String :=
  if g.memory_total > 0 then fmt1 g.memory_used ++ " / " ++ fmt1 g.memory_total ++ " GB"
  else fmt1 g.usage ++ "%"

/-- Whether the GPU value text of `render`, lines 127-134, is drawn:
whenever `gpu_info` is present. -/
def gpu_text_drawn (g : Option GPUInfo) : Bool := g.isSome

/-- Log-scale network activity percent of `_draw_progress_arcs`
(lines 217-225 for download, 266-274 for upload):
`min(100, log10(bytes+1) / log10(1024**4) * 100)` when `bytes > 0`,
else `0`. -/
noncomputable def network_log_percent (bytes : ℕ) : ℝ :=
  if bytes > 0 then
    min 100 (Real.logb 10 ((bytes : ℝ) + 1) / Real.logb 10 (1024 ^ 4) * 100)
  else 0

/-- Download ring percent, lines 217-225. -/
noncomputable def download_ring_percent (n : NetworkInfo) : ℝ :=
  network_log_percent n.bytes_recv

/-- Upload ring percent, lines 266-274. -/
noncomputable def upload_ring_percent (n : NetworkInfo) : ℝ :=
  network_log_percent n.bytes_sent

/-- Whether the download ring of lines 213-233 is drawn: whenever
`network_info` is present. -/
def download_ring_drawn (n : Option NetworkInfo) : Bool := n.isSome

/-- Whether the upload ring of lines 262-282 is drawn. -/
def upload_ring_drawn (n : Option NetworkInfo) : Bool := n.isSome

/-- Download directional share, lines 326-331:
`bytes_recv / (bytes_sent + bytes_recv) * 100`, `0` when the total is
`0`. -/
def download_share (n : NetworkInfo) : ℚ :=
  if 0 < n.bytes_sent + n.bytes_recv then
    (n.bytes_recv : ℚ) / ((n.bytes_sent + n.bytes_recv : ℕ) : ℚ) * 100
  else 0

/-- Upload directional share, lines 365-370. -/
def upload_share (n : NetworkInfo) : ℚ :=
  if 0 < n.bytes_sent + n.bytes_recv then
    (n.bytes_sent : ℚ) / ((n.bytes_sent + n.bytes_recv : ℕ) : ℚ) * 100
  else 0

/-- Download percent label, lines 326-338: drawn whenever `network_info`
is present. -/
def download_percent_label (n : Option NetworkInfo) : Option ℚ := n.map download_share

/-- Upload percent label, lines 364-377. -/
def upload_percent_label (n : Option NetworkInfo) : Option ℚ := n.map upload_share

/-- Whether the download value text of `render`, lines 116-123, is
drawn. -/
def download_text_drawn (n : Option NetworkInfo) : Bool := n.isSome

/-- Whether the upload value text of `render`, lines 143-150, is
drawn. -/
def upload_text_drawn (n : Option NetworkInfo) : Bool := n.isSome

/-- The division loop of `format_bytes` (lines 461-468): walk the unit
list, stopping at the first unit where the value is below 1024; past the
last listed unit the value is rendered as PB unconditionally. -/
def format_bytes_loop : ℚ → List String → String
  | value, [] => fmt1 value ++ "PB"
  | value, unit :: units =>
    if value < 1024 then fmt1 value ++ unit else format_bytes_loop (value / 1024) units

/-- Function `format_bytes` of `kawaii_renderer.py`, lines 461-468. -/
def format_bytes (bytes_value : ℕ) : String :=
  format_bytes_loop (bytes_value : ℚ) ["B", "KB", "MB", "GB", "TB"]

/-! ## Caching command layer (`main.py`)

The process-wide cache dict `self.cache : Dict[str, Tuple[bytes, float]]`
is modelled as an association list with dict lookup/assignment/delete
semantics (iteration order is irrelevant to every claim); image bytes
are opaque and modelled as `ℕ`, timestamps as `ℚ`. -/

/-- The cache map. -/
def Cache : Type := List (String × ℕ × ℚ)

/-- Python `cache[key]` / `key in cache`. -/
def dictLookup (c : Cache) (k : String) : Option (ℕ × ℚ) :=
  (List.find? (fun e => e.1 == k) c).map (·.2)

/-- Python `del cache[key]`. -/
def dictErase (c : Cache) (k : String) : Cache :=
  List.filter (fun e => !(e.1 == k)) c

/-- Python `cache[key] = v` (lookup semantics of dict assignment). -/
def dictInsert (c : Cache) (k : String) (v : ℕ × ℚ) : Cache :=
  (k, v) :: dictErase c k

/-- Function `get_cached_image` of `main.py`, lines 127-137: absent unless caching
is enabled and the key is present; an entry older than
`cache_expire` is deleted and reported absent.  Returns the result
together with the cache map after the call. -/
def get_cached_image (cache_enabled : Bool) (cache_expire : ℚ) (c : Cache)
    (cache_key : String) (now : ℚ) : Option ℕ × Cache :=
  if !cache_enabled then (none, c)
  else
    match dictLookup c cache_key with
    | none => (none, c)
    | some (image_data, timestamp) =>
      if now - timestamp > cache_expire then (none, dictErase c cache_key)
      else (some image_data, c)

/-- Function `cache_image` of `main.py`, lines 139-142: stores the entry with the
current timestamp, only when caching is enabled. -/
def cache_image (cache_enabled : Bool) (c : Cache) (cache_key : String)
    (image_data : ℕ) (now : ℚ) : Cache :=
  if cache_enabled then dictInsert c cache_key (image_data, now) else c

/-- Function `clear_cache_command` of `main.py`, lines 251-262: reads the entry
count, empties the map, and reports the count. -/
def clear_cache (c : Cache) : ℕ × Cache := (c.length, [])

/-- A query environment in which every unguarded OS query succeeds (with
arbitrary small values), while the swap query fails and both GPU
libraries are absent. -/
def envAllOk : OSEnv :=
  { cpu := .ok { percent := 0, freq_mhz := none, cores := 1, brand := none, temperature := none }
    vm := .ok { total := 0, used := 0, available := 0, percent := 0 }
    swap := .error .osError
    disk := .ok { total := 1, used := 0, free := 1 }
    net := .ok { bytes_sent := 0, bytes_recv := 0, packets_sent := 0, packets_recv := 0 }
    sys := .ok { hostname := "h", system := "Linux", release := "6", machine := "x86_64"
                 boot_time := 0, now := 0, pids := 1 }
    gpu := .unavailable }

/-- A query environment in which the disk query raises. -/
def envDiskFails : OSEnv :=
  { envAllOk with disk := .error .osError }

/-! ## Helper lemmas -/

theorem fmt1_eq_of (x : ℚ) (n : ℤ) (h : roundHalfEven (x * 10) = n) :
    fmt1 x = toString (n / 10) ++ "." ++ toString (n % 10) := by
  unfold fmt1; rw [h]

theorem dictLookup_insert (c : Cache) (k : String) (v : ℕ × ℚ) :
    dictLookup (dictInsert c k v) k = some v := by
  unfold dictLookup dictInsert
  rw [List.find?_cons_of_pos _ (by simp)]
  rfl

theorem dictLookup_erase (c : Cache) (k : String) :
    dictLookup (dictErase c k) k = none := by
  unfold dictLookup dictErase
  rw [Option.map_eq_none', List.find?_eq_none]
  intro x hx
  rcases List.mem_filter.mp hx with ⟨-, hpx⟩
  simpa using hpx

theorem except_bind_ok {ε α β : Type} (a : α) (f : α → Except ε β) :
    (Except.ok a >>= f) = f a := rfl

theorem except_bind_error {ε α β : Type} (e : ε) (f : α → Except ε β) :
    ((Except.error e : Except ε α) >>= f) = Except.error e := rfl

theorem except_map_ok {ε α β : Type} (f : α → β) (a : α) :
    (f <$> (Except.ok a : Except ε α)) = (Except.ok (f a) : Except ε β) := rfl

theorem except_map_error {ε α β : Type} (f : α → β) (e : ε) :
    (f <$> (Except.error e : Except ε α)) = (Except.error e : Except ε β) := rfl

theorem format_bytes_loop_stop (value : ℚ) (u : String) (us : List String)
    (h : value < 1024) : format_bytes_loop value (u :: us) = fmt1 value ++ u := by
  unfold format_bytes_loop
  exact if_pos h

theorem format_bytes_loop_step (value : ℚ) (u : String) (us : List String)
    (h : ¬value < 1024) :
    format_bytes_loop value (u :: us) = format_bytes_loop (value / 1024) us := by
  conv_lhs => rw [format_bytes_loop]
  exact if_neg h

end StatusPlugin

namespace StatusPlugin

/-! ## Claim theorems -/

/-- C2 counterexample: at 90000 seconds (`days = 1 > 0`) the rendered
uptime still carries a minutes component ("0分钟"), contradicting the
claim that `days > 0` shows days and hours with no minutes. -/
theorem format_uptime_days_counterexample :
    format_uptime 90000 = "1天 1小时 0分钟" ∧
    "分钟".data <:+ (format_uptime 90000).data :=
  ⟨by decide, ⟨"1天 1小时 0".data, by decide⟩⟩

/-- C2 (amended): `format_uptime` always renders the minutes component;
when `days > 0` it shows days, hours AND minutes, when `days = 0 < hours`
it shows hours and minutes, and otherwise only minutes. -/
theorem format_uptime_unit_selection (n : ℕ) :
    (0 < n / 86400 →
      format_uptime n =
        toString (n / 86400) ++ "天 " ++ toString (n % 86400 / 3600) ++ "小时 " ++
          toString (n % 3600 / 60) ++ "分钟") ∧
    (n / 86400 = 0 → 0 < n % 86400 / 3600 →
      format_uptime n =
        toString (n % 86400 / 3600) ++ "小时 " ++ toString (n % 3600 / 60) ++ "分钟") ∧
    (n / 86400 = 0 → n % 86400 / 3600 = 0 →
      format_uptime n = toString (n % 3600 / 60) ++ "分钟") ∧
    "分钟".data <:+ (format_uptime n).data := by
  refine ⟨fun h => ?_, fun h0 h1 => ?_, fun h0 h1 => ?_, ?_⟩
  · simp only [format_uptime]; rw [if_pos h]
  · simp only [format_uptime]; rw [if_neg (by omega), if_pos h1]
  · simp only [format_uptime]; rw [if_neg (by omega), if_neg (by omega)]
  · simp only [format_uptime]
    split_ifs <;> (rw [String.data_append]; exact List.suffix_append _ _)

/-- C2 witness: the amended days-branch rule applied at 90000 seconds. -/
theorem format_uptime_unit_selection_witness :
    format_uptime 90000 =
      toString (90000 / 86400) ++ "天 " ++ toString (90000 % 86400 / 3600) ++ "小时 " ++
        toString (90000 % 3600 / 60) ++ "分钟" :=
  (format_uptime_unit_selection 90000).1 (by decide)

/-- C10: with caching disabled, `get_cached_image` is absent for every
key and leaves the map untouched, and `cache_image` leaves the map
unchanged. -/
theorem cache_disabled_no_effect (expire : ℚ) (c : Cache) (k : String)
    (data : ℕ) (now : ℚ) :
    get_cached_image false expire c k now = (none, c) ∧
    cache_image false c k data now = c :=
  ⟨rfl, rfl⟩

/-- C5: with caching enabled, `put` then `get` within the TTL window
returns the stored bytes; once more than TTL seconds have elapsed the
`get` is absent and the entry is deleted; `clear` empties the map and
reports the prior entry count. -/
theorem cache_put_get_ttl (expire : ℚ) (k : String) (v : ℕ) (c : Cache)
    (tput tget : ℚ) :
    (tget - tput ≤ expire →
      get_cached_image true expire (cache_image true c k v tput) k tget =
        (some v, cache_image true c k v tput)) ∧
    (expire < tget - tput →
      (get_cached_image true expire (cache_image true c k v tput) k tget).1 = none ∧
      dictLookup (get_cached_image true expire (cache_image true c k v tput) k tget).2 k
        = none) ∧
    clear_cache c = (c.length, []) := by
  have hl : dictLookup (cache_image true c k v tput) k = some (v, tput) := by
    unfold cache_image
    rw [if_pos rfl]
    exact dictLookup_insert c k (v, tput)
  have hsplit : get_cached_image true expire (cache_image true c k v tput) k tget =
      if tget - tput > expire then (none, dictErase (cache_image true c k v tput) k)
      else (some v, cache_image true c k v tput) := by
    unfold get_cached_image
    rw [hl]
    rfl
  refine ⟨fun h => ?_, fun h => ?_, rfl⟩
  · rw [hsplit, if_neg (not_lt.mpr h)]
  · rw [hsplit, if_pos h]
    exact ⟨rfl, dictLookup_erase _ k⟩

/-- C5 witness: put at time 0, get at time 3 with a 5-second TTL returns
the stored value. -/
theorem cache_put_get_ttl_witness :
    get_cached_image true 5 (cache_image true [] "key" 7 0) "key" 3 =
      (some 7, cache_image true [] "key" 7 0) :=
  (cache_put_get_ttl 5 "key" 7 [] 0 3).1 (by norm_num)

/-- C6: the ring sweep angle is `p × 3.6 − 90`: it is −90 at 0, 270 at
100, strictly monotone, maps [0,100] into and onto [−90, 270], and the
CPU and RAM drawing sites agree with it. -/
theorem ring_sweep_angle_spec :
    ring_sweep_angle 0 = -90 ∧ ring_sweep_angle 100 = 270 ∧
    (∀ p q : ℚ, p < q → ring_sweep_angle p < ring_sweep_angle q) ∧
    (∀ p : ℚ, 0 ≤ p → p ≤ 100 → -90 ≤ ring_sweep_angle p ∧ ring_sweep_angle p ≤ 270) ∧
    (∀ y : ℚ, -90 ≤ y → y ≤ 270 → ∃ p, 0 ≤ p ∧ p ≤ 100 ∧ ring_sweep_angle p = y) ∧
    (∀ cpu : CPUInfo, cpu_usage_angle cpu = ring_sweep_angle cpu.usage) ∧
    (∀ m : MemoryInfo, m.total ≠ 0 →
      ram_usage_angle m = .ok (ring_sweep_angle (m.used / m.total * 100))) := by
  have h36 : (0 : ℚ) < 3.6 := by norm_num
  refine ⟨by norm_num [ring_sweep_angle], by norm_num [ring_sweep_angle],
    fun p q h => ?_, fun p h0 h1 => ?_, fun y hy0 hy1 => ?_, fun _ => rfl, fun m hm => ?_⟩
  · unfold ring_sweep_angle
    have := mul_lt_mul_of_pos_right h h36
    linarith
  · unfold ring_sweep_angle
    constructor <;> nlinarith
  · refine ⟨(y + 90) / 3.6, div_nonneg (by linarith) (le_of_lt h36), ?_, ?_⟩
    · rw [div_le_iff₀ h36]; nlinarith
    · unfold ring_sweep_angle
      rw [div_mul_cancel₀ _ (ne_of_gt h36)]
      ring
  · unfold ram_usage_angle ring_sweep_angle
    rw [if_neg hm, mul_assoc]
    norm_num

/-- C6 witness: monotonicity applied at the endpoints. -/
theorem ring_sweep_angle_spec_witness :
    ring_sweep_angle 0 < ring_sweep_angle 100 :=
  ring_sweep_angle_spec.2.2.1 0 100 (by norm_num)

/-- C1 counterexample: a memory or disk snapshot with `total = 0` makes
the unguarded ring-angle and percent divisions of `_draw_progress_arcs`
raise `ZeroDivisionError` instead of yielding percent 0. -/
theorem unguarded_ratio_division_counterexample :
    ram_usage_angle ⟨0, 0, 0, 0⟩ = .error .zeroDiv ∧
    ram_percent ⟨0, 0, 0, 0⟩ = .error .zeroDiv ∧
    disk_usage_angle ⟨0, 0, 0, 0⟩ = .error .zeroDiv ∧
    disk_percent ⟨0, 0, 0, 0⟩ = .error .zeroDiv := by
  refine ⟨?_, ?_, ?_, ?_⟩ <;> simp [ram_usage_angle, ram_percent, disk_usage_angle, disk_percent]

/-- C1 (amended): only swap is guarded as claimed (`total = 0` suppresses
its ring and percent label); GPU-by-VRAM with `memory_total = 0` falls
back to the raw usage percent with the ring still drawn; the memory and
disk ring angles and percent labels divide by `total` unguarded, so
`total = 0` raises `ZeroDivisionError` rather than yielding percent 0;
whenever `total ≠ 0` the percents equal `used/total × 100`. -/
theorem ratio_percent_guards (si : SwapInfo) (g : GPUInfo) (m : MemoryInfo) (d : DiskInfo) :
    (si.total = 0 → swap_usage_arc (some si) = none ∧ swap_percent_label (some si) = none) ∧
    (g.memory_total = 0 →
      gpu_percent g = g.usage ∧ gpu_usage_angle g = ring_sweep_angle g.usage) ∧
    (m.total = 0 → ram_usage_angle m = .error .zeroDiv ∧ ram_percent m = .error .zeroDiv) ∧
    (m.total ≠ 0 → ram_percent m = .ok (m.used / m.total * 100)) ∧
    (d.total = 0 → disk_usage_angle d = .error .zeroDiv ∧ disk_percent d = .error .zeroDiv) ∧
    (d.total ≠ 0 → disk_percent d = .ok (d.used / d.total * 100)) := by
  refine ⟨fun h => ?_, fun h => ?_, fun h => ?_, fun h => ?_, fun h => ?_, fun h => ?_⟩
  · simp [swap_usage_arc, swap_percent_label, h]
  · simp [gpu_percent, gpu_usage_angle, ring_sweep_angle, h]
  · simp [ram_usage_angle, ram_percent, h]
  · simp [ram_percent, h]
  · simp [disk_usage_angle, disk_percent, h]
  · simp [disk_percent, h]

/-- C1 witness: the swap guard applied to a zero-total swap snapshot. -/
theorem ratio_percent_guards_witness :
    swap_usage_arc (some ⟨0, 0, 0⟩) = none ∧ swap_percent_label (some ⟨0, 0, 0⟩) = none :=
  (ratio_percent_guards ⟨0, 0, 0⟩ ⟨"", 0, 0, 0, none⟩ ⟨0, 0, 0, 0⟩ ⟨0, 0, 0, 0⟩).1 rfl

/-- C7: each direction's displayed share is
`this_direction_bytes / (bytes_sent + bytes_recv) × 100`, both shares are
0 when the total is 0, the two shares sum to 100 otherwise, and
`bytes_sent = 100, bytes_recv = 300` gives download 75% and upload 25%. -/
theorem network_share_spec :
    (∀ n : NetworkInfo, n.bytes_sent + n.bytes_recv = 0 →
      download_share n = 0 ∧ upload_share n = 0) ∧
    (∀ n : NetworkInfo, 0 < n.bytes_sent + n.bytes_recv →
      download_share n = (n.bytes_recv : ℚ) / ((n.bytes_sent : ℚ) + (n.bytes_recv : ℚ)) * 100 ∧
      upload_share n = (n.bytes_sent : ℚ) / ((n.bytes_sent : ℚ) + (n.bytes_recv : ℚ)) * 100 ∧
      download_share n + upload_share n = 100) ∧
    download_share ⟨100, 300, 0, 0, 0, 0⟩ = 75 ∧ upload_share ⟨100, 300, 0, 0, 0, 0⟩ = 25 := by
  refine ⟨fun n h => ?_, fun n h => ?_, ?_, ?_⟩
  · unfold download_share upload_share
    rw [if_neg (by omega), if_neg (by omega)]
    exact ⟨rfl, rfl⟩
  · have hne : ((n.bytes_sent + n.bytes_recv : ℕ) : ℚ) ≠ 0 :=
      Nat.cast_ne_zero.mpr h.ne'
    have hcast : ((n.bytes_sent + n.bytes_recv : ℕ) : ℚ) =
        (n.bytes_sent : ℚ) + (n.bytes_recv : ℚ) := by push_cast; ring
    unfold download_share upload_share
    rw [if_pos h, if_pos h, hcast]
    refine ⟨rfl, rfl, ?_⟩
    rw [hcast] at hne
    field_simp
    ring
  · unfold download_share
    rw [if_pos (by norm_num)]
    norm_num
  · unfold upload_share
    rw [if_pos (by norm_num)]
    norm_num

/-- C7 witness: the zero-total rule applied to an all-zero snapshot. -/
theorem network_share_spec_witness :
    download_share ⟨0, 0, 0, 0, 0, 0⟩ = 0 ∧ upload_share ⟨0, 0, 0, 0, 0, 0⟩ = 0 :=
  network_share_spec.1 ⟨0, 0, 0, 0, 0, 0⟩ rfl

/-- C3 counterexample: an absent GPU device reaches the renderer as the
collector's zero-valued placeholder, which is truthy — the GPU ring draw
call is made, a 0% percent label is drawn, and the value text "0.0%" is
drawn, contradicting the claimed suppression. -/
theorem gpu_placeholder_drawn_counterexample :
    gpu_arc_drawn (some (get_gpu_info .unavailable)) = true ∧
    gpu_percent_label (some (get_gpu_info .unavailable)) = some 0 ∧
    gpu_text_drawn (some (get_gpu_info .unavailable)) = true ∧
    gpu_text (get_gpu_info .unavailable) = "0.0%" := by
  refine ⟨rfl, ?_, rfl, ?_⟩
  · simp [gpu_percent_label, get_gpu_info, gpu_percent]
  · simp only [get_gpu_info, gpu_text]
    rw [if_neg (lt_irrefl 0), fmt1_eq_of 0 0 (by unfold roundHalfEven; norm_num)]
    decide

/-- C3 (amended): swap with `total = 0` and a configuration-disabled
network suppress their ring gauges, percent labels and value text rows;
but the GPU never is: `get_gpu_info` always returns a `GPUInfo` value,
and the renderer draws the GPU ring, percent label and value text for
every such value. -/
theorem missing_snapshot_suppression (si : SwapInfo) (p : GpuProbe) :
    (si.total = 0 →
      swap_usage_arc (some si) = none ∧ swap_percent_label (some si) = none ∧
      swap_text_drawn (some si) = false) ∧
    (swap_usage_arc none = none ∧ swap_percent_label none = none ∧
      swap_text_drawn none = false) ∧
    (download_ring_drawn none = false ∧ download_percent_label none = none ∧
      download_text_drawn none = false ∧ upload_ring_drawn none = false ∧
      upload_percent_label none = none ∧ upload_text_drawn none = false) ∧
    (gpu_arc_drawn (some (get_gpu_info p)) = true ∧
      gpu_text_drawn (some (get_gpu_info p)) = true ∧
      (gpu_percent_label (some (get_gpu_info p))).isSome = true) := by
  refine ⟨fun h => ?_, ⟨rfl, rfl, rfl⟩, ⟨rfl, rfl, rfl, rfl, rfl, rfl⟩, rfl, rfl, rfl⟩
  simp [swap_usage_arc, swap_percent_label, swap_text_drawn, h]

/-- C3 witness: the swap suppression rule applied to a zero-total swap
snapshot. -/
theorem missing_snapshot_suppression_witness :
    swap_usage_arc (some ⟨0, 0, 0⟩) = none ∧ swap_percent_label (some ⟨0, 0, 0⟩) = none ∧
    swap_text_drawn (some ⟨0, 0, 0⟩) = false :=
  (missing_snapshot_suppression ⟨0, 0, 0⟩ .unavailable).1 rfl

/-- C4 counterexample: a failing disk query propagates out of
`get_all_status_info` — the collect operation raises. -/
theorem collect_raises_counterexample :
    get_all_status_info envDiskFails = .error .osError := rfl

/-- C4 (amended): `get_all_status_info` absorbs swap and GPU failures
(any swap or GPU outcome still yields a snapshot when the other queries
succeed, and a failing swap query degrades to the zero-valued
`SwapInfo`), but a failure of the CPU, memory, disk, network or system
query — and a zero disk total, which raises `ZeroDivisionError` — each
propagates as an exception out of the call. -/
theorem collect_error_propagation :
    (∀ env : OSEnv, (∃ c, env.cpu = .ok c) → (∃ m, env.vm = .ok m) →
      (∃ d, env.disk = .ok d ∧ d.total ≠ 0) → (∃ n, env.net = .ok n) →
      (∃ s, env.sys = .ok s) → ∀ e, get_all_status_info env ≠ .error e) ∧
    (∀ e, get_swap_info (.error e) = { total := 0, used := 0, usage := 0 }) ∧
    (∀ env : OSEnv, ∀ e, env.cpu = .error e → get_all_status_info env = .error e) ∧
    (∀ env : OSEnv, ∀ e, (∃ c, env.cpu = .ok c) →
      env.vm = .error e → get_all_status_info env = .error e) ∧
    (∀ env : OSEnv, ∀ e, (∃ c, env.cpu = .ok c) → (∃ m, env.vm = .ok m) →
      env.disk = .error e → get_all_status_info env = .error e) ∧
    (∀ env : OSEnv, (∃ c, env.cpu = .ok c) → (∃ m, env.vm = .ok m) →
      (∃ d, env.disk = .ok d ∧ d.total = 0) →
      get_all_status_info env = .error .zeroDiv) ∧
    (∀ env : OSEnv, ∀ e, (∃ c, env.cpu = .ok c) → (∃ m, env.vm = .ok m) →
      (∃ d, env.disk = .ok d ∧ d.total ≠ 0) →
      env.net = .error e → get_all_status_info env = .error e) ∧
    (∀ env : OSEnv, ∀ e, (∃ c, env.cpu = .ok c) → (∃ m, env.vm = .ok m) →
      (∃ d, env.disk = .ok d ∧ d.total ≠ 0) → (∃ n, env.net = .ok n) →
      env.sys = .error e → get_all_status_info env = .error e) := by
  refine ⟨?_, fun _ => rfl, ?_, ?_, ?_, ?_, ?_, ?_⟩
  · rintro ⟨cpu, vm, swap, disk, net, sys, gpu⟩ ⟨c, hc⟩ ⟨m, hm⟩ ⟨d, hd, hd0⟩ ⟨n, hn⟩ ⟨s, hs⟩
      e hcontra
    subst hc; subst hm; subst hd; subst hn; subst hs
    have hdi : get_disk_info (Except.ok d) =
        .ok { total := bytes_to_gb d.total, used := bytes_to_gb d.used
              free := bytes_to_gb d.free
              usage := (roundHalfEven ((d.used : ℚ) / (d.total : ℚ) * 100 * 10) : ℚ) / 10 } := by
      simp only [get_disk_info]
      rw [if_neg hd0]
    simp only [get_all_status_info, get_cpu_info, get_memory_info, get_network_info,
      get_system_info, Except.map, hdi, except_bind_ok, except_map_ok] at hcontra
    exact Except.noConfusion hcontra
  · rintro ⟨cpu, vm, swap, disk, net, sys, gpu⟩ e hc
    subst hc
    simp only [get_all_status_info, get_cpu_info, Except.map, except_bind_error]
  · rintro ⟨cpu, vm, swap, disk, net, sys, gpu⟩ e ⟨c, hc⟩ hm
    subst hc; subst hm
    simp only [get_all_status_info, get_cpu_info, get_memory_info, Except.map,
      except_bind_ok, except_bind_error]
  · rintro ⟨cpu, vm, swap, disk, net, sys, gpu⟩ e ⟨c, hc⟩ ⟨m, hm⟩ hd
    subst hc; subst hm; subst hd
    simp only [get_all_status_info, get_cpu_info, get_memory_info, get_disk_info,
      Except.map, except_bind_ok, except_bind_error]
  · rintro ⟨cpu, vm, swap, disk, net, sys, gpu⟩ ⟨c, hc⟩ ⟨m, hm⟩ ⟨d, hd, hd0⟩
    subst hc; subst hm; subst hd
    have hdz : get_disk_info (Except.ok d) = .error .zeroDiv := by
      simp only [get_disk_info]
      rw [if_pos hd0]
    simp only [get_all_status_info, get_cpu_info, get_memory_info, Except.map, hdz,
      except_bind_ok, except_bind_error]
  · rintro ⟨cpu, vm, swap, disk, net, sys, gpu⟩ e ⟨c, hc⟩ ⟨m, hm⟩ ⟨d, hd, hd0⟩ hn
    subst hc; subst hm; subst hd; subst hn
    have hdi : get_disk_info (Except.ok d) =
        .ok { total := bytes_to_gb d.total, used := bytes_to_gb d.used
              free := bytes_to_gb d.free
              usage := (roundHalfEven ((d.used : ℚ) / (d.total : ℚ) * 100 * 10) : ℚ) / 10 } := by
      simp only [get_disk_info]
      rw [if_neg hd0]
    simp only [get_all_status_info, get_cpu_info, get_memory_info, get_network_info,
      Except.map, hdi, except_bind_ok, except_bind_error]
  · rintro ⟨cpu, vm, swap, disk, net, sys, gpu⟩ e ⟨c, hc⟩ ⟨m, hm⟩ ⟨d, hd, hd0⟩ ⟨n, hn⟩ hs
    subst hc; subst hm; subst hd; subst hn; subst hs
    have hdi : get_disk_info (Except.ok d) =
        .ok { total := bytes_to_gb d.total, used := bytes_to_gb d.used
              free := bytes_to_gb d.free
              usage := (roundHalfEven ((d.used : ℚ) / (d.total : ℚ) * 100 * 10) : ℚ) / 10 } := by
      simp only [get_disk_info]
      rw [if_neg hd0]
    simp only [get_all_status_info, get_cpu_info, get_memory_info, get_network_info,
      get_system_info, Except.map, hdi, except_bind_ok, except_bind_error,
      except_map_error]

/-- C4 witness: error propagation applied to the concrete failing-disk
environment. -/
theorem collect_error_propagation_witness :
    get_all_status_info envDiskFails = .error .osError :=
  collect_error_propagation.2.2.2.2.1 envDiskFails .osError ⟨_, rfl⟩ ⟨_, rfl⟩ rfl

/-- C8: `format_bytes` renders with one decimal place and walks
B→KB→MB→GB→TB→PB dividing by 1024, stopping at the first unit where the
value is below 1024; `format_bytes 0 = "0.0B"`,
`format_bytes 1536 = "1.5KB"`, `format_bytes (1024^4) = "1.0TB"`. -/
theorem format_bytes_spec :
    format_bytes 0 = "0.0B" ∧
    format_bytes 1536 = "1.5KB" ∧
    format_bytes (1024 ^ 4) = "1.0TB" ∧
    (∀ b : ℕ, (b : ℚ) < 1024 → format_bytes b = fmt1 (b : ℚ) ++ "B") ∧
    (∀ b : ℕ, 1024 ≤ (b : ℚ) → (b : ℚ) < 1024 ^ 2 →
      format_bytes b = fmt1 ((b : ℚ) / 1024) ++ "KB") ∧
    (∀ b : ℕ, 1024 ^ 2 ≤ (b : ℚ) → (b : ℚ) < 1024 ^ 3 →
      format_bytes b = fmt1 ((b : ℚ) / 1024 ^ 2) ++ "MB") ∧
    (∀ b : ℕ, 1024 ^ 3 ≤ (b : ℚ) → (b : ℚ) < 1024 ^ 4 →
      format_bytes b = fmt1 ((b : ℚ) / 1024 ^ 3) ++ "GB") ∧
    (∀ b : ℕ, 1024 ^ 4 ≤ (b : ℚ) → (b : ℚ) < 1024 ^ 5 →
      format_bytes b = fmt1 ((b : ℚ) / 1024 ^ 4) ++ "TB") ∧
    (∀ b : ℕ, 1024 ^ 5 ≤ (b : ℚ) → format_bytes b = fmt1 ((b : ℚ) / 1024 ^ 5) ++ "PB") := by
  refine ⟨?_, ?_, ?_, fun b h => ?_, fun b h1 h2 => ?_, fun b h1 h2 => ?_,
    fun b h1 h2 => ?_, fun b h1 h2 => ?_, fun b h1 => ?_⟩
  · unfold format_bytes
    rw [format_bytes_loop_stop _ _ _ (by push_cast; norm_num),
      fmt1_eq_of _ 0 (by unfold roundHalfEven; push_cast; norm_num)]
    decide
  · unfold format_bytes
    rw [format_bytes_loop_step _ _ _ (by push_cast; norm_num),
      format_bytes_loop_stop _ _ _ (by push_cast; norm_num),
      fmt1_eq_of _ 15 (by unfold roundHalfEven; push_cast; norm_num)]
    decide
  · unfold format_bytes
    rw [format_bytes_loop_step _ _ _ (by push_cast; norm_num),
      format_bytes_loop_step _ _ _ (by push_cast; norm_num),
      format_bytes_loop_step _ _ _ (by push_cast; norm_num),
      format_bytes_loop_step _ _ _ (by push_cast; norm_num),
      format_bytes_loop_stop _ _ _ (by push_cast; norm_num),
      fmt1_eq_of _ 10 (by unfold roundHalfEven; push_cast; norm_num)]
    decide
  · unfold format_bytes
    rw [format_bytes_loop_stop _ _ _ h]
  · unfold format_bytes
    rw [format_bytes_loop_step _ _ _ (not_lt.mpr h1),
      format_bytes_loop_stop _ _ _ (by rw [div_lt_iff₀ (by norm_num)]; norm_num at h2 ⊢; linarith)]
  · unfold format_bytes
    rw [format_bytes_loop_step _ _ _ (not_lt.mpr (by norm_num at h1 ⊢; linarith)),
      format_bytes_loop_step _ _ _
        (not_lt.mpr (by rw [le_div_iff₀ (by norm_num)]; norm_num at h1 ⊢; linarith)),
      format_bytes_loop_stop _ _ _
        (by rw [div_div, div_lt_iff₀ (by norm_num)]; norm_num at h2 ⊢; linarith),
      div_div]
    norm_num
  · unfold format_bytes
    rw [format_bytes_loop_step _ _ _ (not_lt.mpr (by norm_num at h1 ⊢; linarith)),
      format_bytes_loop_step _ _ _
        (not_lt.mpr (by rw [le_div_iff₀ (by norm_num)]; norm_num at h1 ⊢; linarith)),
      format_bytes_loop_step _ _ _
        (not_lt.mpr (by rw [div_div, le_div_iff₀ (by norm_num)]; norm_num at h1 ⊢; linarith)),
      format_bytes_loop_stop _ _ _
        (by rw [div_div, div_div, div_lt_iff₀ (by norm_num)]; norm_num at h2 ⊢; linarith),
      div_div, div_div]
    norm_num
  · unfold format_bytes
    rw [format_bytes_loop_step _ _ _ (not_lt.mpr (by norm_num at h1 ⊢; linarith)),
      format_bytes_loop_step _ _ _
        (not_lt.mpr (by rw [le_div_iff₀ (by norm_num)]; norm_num at h1 ⊢; linarith)),
      format_bytes_loop_step _ _ _
        (not_lt.mpr (by rw [div_div, le_div_iff₀ (by norm_num)]; norm_num at h1 ⊢; linarith)),
      format_bytes_loop_step _ _ _
        (not_lt.mpr (by rw [div_div, div_div, le_div_iff₀ (by norm_num)]; norm_num at h1 ⊢; linarith)),
      format_bytes_loop_stop _ _ _
        (by rw [div_div, div_div, div_div, div_lt_iff₀ (by norm_num)]; norm_num at h2 ⊢; linarith),
      div_div, div_div, div_div]
    norm_num
  · unfold format_bytes
    rw [format_bytes_loop_step _ _ _ (not_lt.mpr (by norm_num at h1 ⊢; linarith)),
      format_bytes_loop_step _ _ _
        (not_lt.mpr (by rw [le_div_iff₀ (by norm_num)]; norm_num at h1 ⊢; linarith)),
      format_bytes_loop_step _ _ _
        (not_lt.mpr (by rw [div_div, le_div_iff₀ (by norm_num)]; norm_num at h1 ⊢; linarith)),
      format_bytes_loop_step _ _ _
        (not_lt.mpr (by rw [div_div, div_div, le_div_iff₀ (by norm_num)]; norm_num at h1 ⊢; linarith)),
      format_bytes_loop_step _ _ _
        (not_lt.mpr (by rw [div_div, div_div, div_div, le_div_iff₀ (by norm_num)]; norm_num at h1 ⊢; linarith))]
    show fmt1 _ ++ "PB" = _
    rw [div_div, div_div, div_div, div_div]
    norm_num

/-- C8 witness: the B-range rule applied at 0 bytes. -/
theorem format_bytes_spec_witness :
    format_bytes 0 = fmt1 ((0 : ℕ) : ℚ) ++ "B" :=
  format_bytes_spec.2.2.2.1 0 (by norm_num)

/-- C9: the network activity ring percent is
`min(100, log10(bytes+1)/log10(2^40) × 100)` for every byte count, is 0
at 0 bytes, and is exactly what the download and upload ring sites
compute. -/
theorem network_log_percent_spec :
    (∀ b : ℕ, network_log_percent b =
      min 100 (Real.logb 10 ((b : ℝ) + 1) / Real.logb 10 (2 ^ 40) * 100)) ∧
    network_log_percent 0 = 0 ∧
    (∀ n : NetworkInfo, download_ring_percent n = network_log_percent n.bytes_recv ∧
      upload_ring_percent n = network_log_percent n.bytes_sent) := by
  refine ⟨fun b => ?_, rfl, fun n => ⟨rfl, rfl⟩⟩
  unfold network_log_percent
  rcases Nat.eq_zero_or_pos b with h | h
  · subst h
    rw [if_neg (lt_irrefl 0), Nat.cast_zero, zero_add, Real.logb_one, zero_div,
      zero_mul, min_eq_right (by norm_num : (0 : ℝ) ≤ 100)]
  · rw [if_pos h]
    norm_num

end StatusPlugin
